import Mathlib

/-!
Shallow embedding of the frame parser / payload decoder of
`custom_components/ble_monitor/sensor.py` (functions `parse_xiaomi_value`,
`decrypt_payload`, `parse_raw_message`), together with proofs about the
claims of the specification.

Python `bytes` values are embedded as `List Nat` (each element a byte value),
Python `dict` values as association lists, Python `float` results of the
fixed-point divisions as `ℚ`, and a Python function that can raise an
uncaught exception returns `PRes`.
-/

set_option autoImplicit false
set_option linter.unusedVariables false
set_option maxRecDepth 40000

/-- Outcome of a Python call: either an uncaught exception or a value. -/
inductive PRes (α : Type) where
  | exn (msg : String)
  | val (a : α)
  deriving DecidableEq, Repr

/-- Python slice-bound normalisation for step-1 slices over a sequence of
length `len`: negative indices count from the end, then the bound is clamped
into `[0, len]`. -/
def pyBound (len : Nat) (i : Int) : Nat :=
  if i < 0 then (max 0 ((len : Int) + i)).toNat else min i.toNat len

/-- Python `l[a:b]` (step 1) on a byte sequence: never raises, clamps. -/
def pySlice (l : List Nat) (a b : Int) : List Nat :=
  (l.take (pyBound l.length b)).drop (pyBound l.length a)

/-- Python `l[a:]` (step 1). -/
def pySliceFrom (l : List Nat) (a : Int) : List Nat :=
  l.drop (pyBound l.length a)

/-- Helper for `pyFind`: first index `i ≥ start` with the needle fully inside
`[start, fin)` and matching; searches at most `fuel` candidate positions. -/
def pyFindAux (l needle : List Nat) (fin : Nat) : Nat → Nat → Option Nat
  | _, 0 => none
  | i, fuel + 1 =>
    if i + needle.length ≤ fin then
      if pySlice l (i : Int) ((i + needle.length : Nat) : Int) = needle then some i
      else pyFindAux l needle fin (i + 1) fuel
    else none

/-- Python `bytes.find(needle, start, fin)`: lowest index `i ≥ start` such
that the needle occurs at `i` entirely inside `l[start:fin]`; `none` stands
for Python's `-1`. -/
def pyFind (l needle : List Nat) (start fin : Nat) : Option Nat :=
  pyFindAux l needle (min fin l.length) start (l.length + 1)

/-- Python `struct.unpack("<b", ...)` byte interpretation: signed byte. -/
def toSigned (b : Nat) : Int :=
  if b < 128 then (b : Int) else (b : Int) - 256

/-- Signed 16-bit interpretation of an unsigned 16-bit value (`struct` code `h`). -/
def toSigned16 (x : Nat) : Int :=
  if x < 32768 then (x : Int) else (x : Int) - 65536

/-- Uppercase hex digit, as produced by Python format `{:02X}` (written
here without a literal brace). -/
def hexDigit (n : Nat) : Char :=
  (List.getD ['0', '1', '2', '3', '4', '5', '6', '7',
              '8', '9', 'A', 'B', 'C', 'D', 'E', 'F'] n '0')

/-- Python `"..{:02X}..".format(b)` for a byte `b < 256`: two uppercase hex digits. -/
def byteHex (b : Nat) : String :=
  String.mk [hexDigit (b / 16 % 16), hexDigit (b % 16)]

/-- The mac string built by the source: hex digits of the reversed
`xiaomi_mac_reversed` bytes, concatenated. -/
def macHexStr (macRev : List Nat) : String :=
  String.join (macRev.reverse.map byteHex)

/-- Values appearing in the result dict: Python ints and the Python floats
produced by the fixed-point divisions (embedded exactly as rationals),
and strings. -/
inductive XValue where
  | vInt (i : Int)
  | vRat (q : ℚ)
  | vStr (s : String)
  deriving DecidableEq, Repr

/-- Result record: a Python dict embedded as an insertion-ordered
association list. -/
abbrev Dict : Type := List (String × XValue)

/-- Python `d[k] = v` on a dict: replace in place if the key is present,
else append (insertion order preserved). -/
def dictSet : Dict → String → XValue → Dict
  | [], k, v => [(k, v)]
  | (k2, v2) :: t, k, v =>
    if k2 = k then (k, v) :: t else (k2, v2) :: dictSet t k v

/-- Python `d.update(e)`: set every entry of `e` into `d`, in order. -/
def dictUpdate (d e : Dict) : Dict :=
  e.foldl (fun acc kv => dictSet acc kv.1 kv.2) d

/-- Little-endian unsigned 16-bit field (`struct` code `<H`). -/
def le16 (b0 b1 : Nat) : Nat := b0 + 256 * b1

/-- Source `parse_xiaomi_value` (sensor.py lines 129-166): convert a typed
sub-record value depending on its 2-byte type code and length. -/
def parse_xiaomi_value (hexvalue : List Nat) (typecode : List Nat) : Option Dict :=
  let vlength := hexvalue.length
  if vlength = 4 then
    if typecode = [0x0D, 0x10] then
      match hexvalue with
      | [b0, b1, b2, b3] =>
        some [("temperature", .vRat ((toSigned16 (le16 b0 b1) : ℚ) / 10)),
              ("humidity", .vRat ((le16 b2 b3 : ℚ) / 10))]
      | _ => none
    else none
  else if vlength = 2 then
    match hexvalue with
    | [b0, b1] =>
      if typecode = [0x06, 0x10] then
        some [("humidity", .vRat ((le16 b0 b1 : ℚ) / 10))]
      else if typecode = [0x04, 0x10] then
        some [("temperature", .vRat ((toSigned16 (le16 b0 b1) : ℚ) / 10))]
      else if typecode = [0x09, 0x10] then
        some [("conductivity", .vInt (le16 b0 b1))]
      else if typecode = [0x10, 0x10] then
        some [("formaldehyde", .vRat ((le16 b0 b1 : ℚ) / 100))]
      else none
    | _ => none
  else if vlength = 1 then
    match hexvalue with
    | [b0] =>
      if typecode = [0x0A, 0x10] then some [("battery", .vInt b0)]
      else if typecode = [0x08, 0x10] then some [("moisture", .vInt b0)]
      else if typecode = [0x12, 0x10] then some [("switch", .vInt b0)]
      else if typecode = [0x18, 0x10] then some [("light", .vInt b0)]
      else if typecode = [0x19, 0x10] then some [("opening", .vInt b0)]
      else if typecode = [0x13, 0x10] then some [("consumable", .vInt b0)]
      else none
    | _ => none
  else if vlength = 3 then
    if typecode = [0x07, 0x10] then
      match hexvalue with
      | [b0, b1, b2] =>
        some [("illuminance", .vInt (b0 + 256 * b1 + 65536 * b2))]
      | _ => none
    else none
  else none

/-!
AES-128 in CCM mode with a 4-byte tag, as used by the source through the
external `Cryptodome` library (`AES.new(key, AES.MODE_CCM, nonce=nonce,
mac_len=4)`, one `update(aad)` call, then `decrypt_and_verify`).  The
library is not part of the repository, so the primitive is modelled here
directly from the AES (FIPS-197) and CCM (RFC 3610) standards; the block
cipher is grounded below by the FIPS-197 example vectors.
-/

/-- Multiplication by `x` in GF(2^8) modulo the AES polynomial `0x11B`. -/
def xtime (a : Nat) : Nat :=
  let a2 := a <<< 1
  if 256 ≤ a2 then a2 ^^^ 0x11B else a2

/-- GF(2^8) product, 8 shift-and-add steps. -/
def gfMulAux : Nat → Nat → Nat → Nat
  | 0, _, _ => 0
  | fuel + 1, a, b =>
    (if b % 2 = 1 then a else 0) ^^^ gfMulAux fuel (xtime a) (b / 2)

/-- GF(2^8) multiplication. -/
def gfMul (a b : Nat) : Nat := gfMulAux 8 a b

/-- GF(2^8) inverse of a nonzero byte via `b ^ 254`. -/
def gfInv (b : Nat) : Nat :=
  let b2 := gfMul b b
  let b4 := gfMul b2 b2
  let b8 := gfMul b4 b4
  let b16 := gfMul b8 b8
  let b32 := gfMul b16 b16
  let b64 := gfMul b32 b32
  let b128 := gfMul b64 b64
  gfMul b128 (gfMul b64 (gfMul b32 (gfMul b16 (gfMul b8 (gfMul b4 b2)))))

/-- Rotate a byte left by `n` bits. -/
def rotl8 (b n : Nat) : Nat :=
  ((b <<< n) ||| (b >>> (8 - n))) &&& 255

/-- The AES S-box computed from its definition: multiplicative inverse in
GF(2^8) followed by the FIPS-197 affine map. -/
def sboxRef (b : Nat) : Nat :=
  let i := if b = 0 then 0 else gfInv b
  i ^^^ rotl8 i 1 ^^^ rotl8 i 2 ^^^ rotl8 i 3 ^^^ rotl8 i 4 ^^^ 0x63

/-- The 256 S-box bytes packed little-endian into one number, so a lookup is
a single shift-and-mask; `sbox_table_correct` below checks every entry
against `sboxRef`. -/
def sboxTable : Nat :=
  2869618975290639062594974519597816386035077209210385677284518162336985023502962151465775969507961862820568736543004676439868535775640188584098917533413284844376797297285941524888791401501466624530423689326528054213168201056672989590893583853414110162539122864583953358348775951166211353578440977400428507475679327181038682772945817200201960445064847785221508011893952350688324234443749897213621340677040612747745615276448919507935121141307752692835344166708617454322778699219895865633266409040561742768581056182730443599545881830075941537620590442514083341749674612746994879540562701631131184186066652929592955206755

/-- AES S-box lookup. -/
def sbox (b : Nat) : Nat := (sboxTable >>> (8 * b)) &&& 255

/-- Byte-wise xor of two byte strings (truncates to the shorter). -/
def xorBytes (a b : List Nat) : List Nat := List.zipWith (· ^^^ ·) a b

/-- One step of the AES-128 key schedule: round key `r+1` from round key `r`
and the round constant `rc = x^r`. -/
def nextRoundKey (rk : List Nat) (rc : Nat) : List Nat :=
  let w0 := rk.take 4
  let w1 := (rk.drop 4).take 4
  let w2 := (rk.drop 8).take 4
  let w3 := rk.drop 12
  let t := xorBytes ((w3.drop 1 ++ w3.take 1).map sbox) [rc, 0, 0, 0]
  let w0n := xorBytes w0 t
  let w1n := xorBytes w1 w0n
  let w2n := xorBytes w2 w1n
  let w3n := xorBytes w3 w2n
  w0n ++ w1n ++ w2n ++ w3n

/-- AES ShiftRows on the flat 16-byte state (index `i` holds row `i % 4`,
column `i / 4`, FIPS-197 input order). -/
def shiftRows (s : List Nat) : List Nat :=
  (List.range 16).map (fun i => s.getD (i % 4 + 4 * ((i / 4 + i % 4) % 4)) 0)

/-- AES MixColumns on one 4-byte column. -/
def mixColumn (col : List Nat) : List Nat :=
  match col with
  | [a0, a1, a2, a3] =>
    let m3 := fun b => xtime b ^^^ b
    [xtime a0 ^^^ m3 a1 ^^^ a2 ^^^ a3,
     a0 ^^^ xtime a1 ^^^ m3 a2 ^^^ a3,
     a0 ^^^ a1 ^^^ xtime a2 ^^^ m3 a3,
     m3 a0 ^^^ a1 ^^^ a2 ^^^ xtime a3]
  | _ => col

/-- AES MixColumns on the flat state. -/
def mixColumns (s : List Nat) : List Nat :=
  ((List.range 4).map (fun c => mixColumn ((s.drop (4 * c)).take 4))).flatten

/-- One full middle round. -/
def aesRound (rk s : List Nat) : List Nat :=
  xorBytes (mixColumns (shiftRows (s.map sbox))) rk

/-- Run `n` middle rounds, expanding the key schedule on the fly, then the
final round (no MixColumns) with the last round key. -/
def aesLoop : Nat → List Nat → Nat → List Nat → List Nat
  | 0, rk, rc, s => xorBytes (shiftRows (s.map sbox)) (nextRoundKey rk rc)
  | n + 1, rk, rc, s =>
    let rk2 := nextRoundKey rk rc
    aesLoop n rk2 (xtime rc) (aesRound rk2 s)

/-- AES-128 block encryption of a 16-byte block. -/
def aesEncryptBlock (key block : List Nat) : List Nat :=
  aesLoop 9 key 1 (xorBytes block key)

/-- Big-endian byte encoding of `n` in `width` bytes. -/
def natToBytesBE (n width : Nat) : List Nat :=
  (List.range width).map (fun i => n >>> (8 * (width - 1 - i)) % 256)

/-- Zero-pad a byte string up to a multiple of 16 bytes. -/
def padTo16 (l : List Nat) : List Nat :=
  l ++ List.replicate ((16 - l.length % 16) % 16) 0

/-- Split a byte string into 16-byte blocks. -/
def chunks16 : Nat → List Nat → List (List Nat)
  | 0, _ => []
  | _, [] => []
  | fuel + 1, l => l.take 16 :: chunks16 fuel (l.drop 16)

/-- Raw CBC-MAC over whole blocks with a zero IV (so `X_1 = E(K, B_0)`). -/
def cbcMac (key : List Nat) (blocks : List (List Nat)) : List Nat :=
  blocks.foldl (fun x b => aesEncryptBlock key (xorBytes x b)) (List.replicate 16 0)

/-- CCM counter block `A_i` for nonce `nonce` (RFC 3610). -/
def ccmCtrBlock (nonce : List Nat) (L i : Nat) : List Nat :=
  (L - 1) :: nonce ++ natToBytesBE i L

/-- CCM keystream: `S_1 ‖ S_2 ‖ …`, enough for `n` bytes. -/
def ccmStream (key nonce : List Nat) (L n : Nat) : List Nat :=
  ((List.range ((n + 15) / 16)).map
    (fun i => aesEncryptBlock key (ccmCtrBlock nonce L (i + 1)))).flatten

/-- CCM authentication value `T` (untruncated CBC-MAC output) over the
formatted blocks `B_0, B_1, …` for message `msg`, associated data `aad`,
tag width `M`. -/
def ccmMacT (key nonce aad msg : List Nat) (L M : Nat) : List Nat :=
  let flags := (if aad.length ≠ 0 then 64 else 0) + 8 * ((M - 2) / 2) + (L - 1)
  let b0 := flags :: nonce ++ natToBytesBE msg.length L
  let aadBlocks :=
    if aad.length = 0 then []
    else chunks16 (aad.length + 18) (padTo16 (natToBytesBE aad.length 2 ++ aad))
  let msgBlocks := chunks16 (msg.length + 1) (padTo16 msg)
  cbcMac key (b0 :: aadBlocks ++ msgBlocks)

/-- Modelled from the spec and the CCM standard: the external
`Cryptodome` call `AES.new(key, MODE_CCM, nonce, mac_len=4)` + `update(aad)`
+ `decrypt_and_verify(ciphertext, tag)`.  Decryption and verification are one
atomic operation: the plaintext is returned only when the received tag
matches the tag recomputed over the decrypted plaintext; otherwise the
result is `none` (the library raises `ValueError`, which the source turns
into `None`). -/
def ccmDecryptAndVerify (key nonce aad ciphertext tag : List Nat) : Option (List Nat) :=
  let L := 15 - nonce.length
  let plain := xorBytes ciphertext (ccmStream key nonce L ciphertext.length)
  let s0 := aesEncryptBlock key (ccmCtrBlock nonce L 0)
  let expected := xorBytes ((ccmMacT key nonce aad plain L 4).take 4) (s0.take 4)
  if tag = expected then some plain else none

/-- Source `decrypt_payload` (sensor.py lines 169-188), parameterised by the
external AEAD primitive `dv` standing for `cipher.decrypt_and_verify` of a
CCM cipher built with the given key and assembled nonce (arguments of `dv`:
key, nonce, associated data, ciphertext, tag).  The associated data is the
fixed byte `0x11`; the authentication tag is the last 4 bytes of the region,
the 3-byte payload counter completes the nonce, and the ciphertext is
everything before that 7-byte trailer.  A `ValueError` from verification is
caught by the source and becomes `None`, which `dv = none` models. -/
def decrypt_payload (dv : List Nat → List Nat → List Nat → List Nat → List Nat → Option (List Nat))
    (encrypted_payload key nonce : List Nat) : Option (List Nat) :=
  let aad := [0x11]
  let token := pySliceFrom encrypted_payload (-4)
  let payload_counter := pySlice encrypted_payload (-7) (-4)
  let nonce2 := nonce ++ payload_counter
  let cipherpayload := pySlice encrypted_payload 0 (-7)
  dv key nonce2 aad cipherpayload token

/-- Modelled from the spec: the static device-type registry
`XIAOMI_TYPE_DICT` is imported from `const.py`, which is not among the given
sources.  The spec describes it as a static registry mapping the 2-byte
device-type tag to a device-type identifier; the source's own comments name
the LYWSDCGQ hygrometer, whose wire tag is `AA 01`.  One representative
entry suffices: no claim depends on the registry's full contents, only on
lookup success or failure. -/
def XIAOMI_TYPE_DICT : List (List Nat × String) := [([0xAA, 0x01], "LYWSDCGQ")]

/-- The sub-record walking loop of `parse_raw_message` (source lines
306-329), with an explicit structural fuel so the kernel can evaluate it:
read a 2-byte type code and a 1-byte length, decode the value span (a Python
slice, clamped to the buffer), merge decoded quantities, and advance; when
the length byte cannot be read (`IndexError`), partial results are discarded
(`result = ...` set to the empty dict) and the loop breaks.  Each iteration
either breaks or moves `xdata_point` up by at least 3 while staying at or
below `msg_length - 3`, so with the fuel `msg_length - xdata_point + 1`
supplied by the `walk` wrapper the fuel never runs out
(`walkAux_fuel_sufficient` below makes this precise). -/
def walkAux (data : List Nat) : Nat → Nat → Nat → Dict → Dict
  | 0, _, _, result => result
  | fuel + 1, msg_length, xdata_point, result =>
    let xvalue_typecode := pySlice data (xdata_point : Int) ((xdata_point : Int) + 2)
    match data[xdata_point + 2]? with
    | none => []
    | some xvalue_length =>
      let xnext_point := xdata_point + 3 + xvalue_length
      let xvalue := pySlice data ((xdata_point : Int) + 3) (xnext_point : Int)
      let result2 :=
        match parse_xiaomi_value xvalue xvalue_typecode with
        | some r => if r.isEmpty then result else dictUpdate result r
        | none => result
      if msg_length - 3 < xnext_point then result2
      else walkAux data fuel msg_length xnext_point result2

/-- The walking loop with the sufficient fuel supplied. -/
def walk (data : List Nat) (msg_length xdata_point : Nat) (result : Dict) : Dict :=
  walkAux data (msg_length - xdata_point + 1) msg_length xdata_point result

/-- Trace twin of `walkAux` with the same recursion structure: the list of
sub-record start offsets the loop visits (each iteration reads its type tag
at `p`, `p+1` and its length byte at `p+2`, and decodes the value span
`[p+3, p+3+length)`). -/
def walkStartsAux (data : List Nat) : Nat → Nat → Nat → List Nat
  | 0, _, _ => []
  | fuel + 1, msg_length, xdata_point =>
    xdata_point ::
      match data[xdata_point + 2]? with
      | none => []
      | some xvalue_length =>
        let xnext_point := xdata_point + 3 + xvalue_length
        if msg_length - 3 < xnext_point then []
        else walkStartsAux data fuel msg_length xnext_point

/-- The trace of sub-record starts with the sufficient fuel supplied. -/
def walkStarts (data : List Nat) (msg_length xdata_point : Nat) : List Nat :=
  walkStartsAux data (msg_length - xdata_point + 1) msg_length xdata_point

/-- Source `parse_raw_message` (sensor.py lines 191-330), parameterised by
the external AEAD primitive `dv` (see `decrypt_payload`).  The embedding
follows the source line by line; `PRes.exn` marks a Python exception the
source would not catch (`IndexError` from a bare subscript, `struct.error`
from `struct.unpack` on a slice of the wrong width). -/
def parse_raw_message_dv
    (dv : List Nat → List Nat → List Nat → List Nat → List Nat → Option (List Nat))
    (data0 : Option (List Nat)) (aeskeyslist : List (List Nat × List Nat))
    (whitelist : List (List Nat)) (report_unknown : Bool) : PRes (Option Dict) :=
  match data0 with
  | none => .val none
  | some data =>
    match data[3]? with
    | none => .exn "IndexError"
    | some b3 =>
      let is_ext_packet := b3 = 0x0d
      match pyFind data [0x16, 0x95, 0xFE] (if is_ext_packet then 30 else 0) data.length with
      | none => .val none
      | some xiaomi_index =>
        let advert_start := if is_ext_packet then 29 else 14
        let adv_index1 := pyFind data [0x02, 0x01, 0x06] advert_start (3 + advert_start)
        let adv_index2 := pyFind data [0x15, 0x16, 0x95] advert_start (3 + advert_start)
        match (match adv_index2 with | some i => some i | none => adv_index1) with
        | none => .val none
        | some adv_index =>
          match data[2]? with
          | none => .exn "IndexError"
          | some b2 =>
            let msg_length := b2 + 3
            if msg_length ≠ data.length then .val none
            else
              let xiaomi_mac_reversed :=
                pySlice data ((xiaomi_index : Int) + 8) ((xiaomi_index : Int) + 14)
              let mac_index : Int :=
                if is_ext_packet then (adv_index : Int) - 14 else (adv_index : Int)
              let source_mac_reversed := pySlice data (mac_index - 7) (mac_index - 1)
              if xiaomi_mac_reversed ≠ source_mac_reversed then .val none
              else if whitelist ≠ [] ∧ xiaomi_mac_reversed ∉ whitelist then .val none
              else
                let rssi_index : Int := if is_ext_packet then 18 else (msg_length : Int) - 1
                match pySlice data rssi_index (rssi_index + 1) with
                | [rssiByte] =>
                  let rssi0 := toSigned rssiByte
                  let rssi := if 0 < rssi0 then -rssi0 else rssi0
                  match List.lookup
                      (pySlice data ((xiaomi_index : Int) + 5) ((xiaomi_index : Int) + 7))
                      XIAOMI_TYPE_DICT with
                  | none => .val none
                  | some sensor_type =>
                    match pySlice data ((xiaomi_index : Int) + 3) ((xiaomi_index : Int) + 5) with
                    | [f0, f1] =>
                      let framectrl := 256 * f0 + f1
                      if framectrl &&& 0x4000 = 0 then .val none
                      else
                        let cap := framectrl &&& 0x2000 ≠ 0
                        let xdata_length : Int :=
                          (if cap then -1 else 0) + (msg_length : Int) - (xiaomi_index : Int) - 15
                        if xdata_length < 3 then .val none
                        else
                          let xdata_point : Nat := (if cap then 1 else 0) + xiaomi_index + 14
                          if xdata_length ≠ ((pySlice data (xdata_point : Int) (-1)).length : Int)
                          then .val none
                          else
                            let finish : List Nat → Nat → PRes (Option Dict) :=
                              fun data2 msg_length2 =>
                                match data2[xiaomi_index + 7]? with
                                | none => .exn "IndexError"
                                | some packet_id =>
                                  let result : Dict :=
                                    [("rssi", .vInt rssi),
                                     ("mac", .vStr (macHexStr xiaomi_mac_reversed)),
                                     ("type", .vStr sensor_type),
                                     ("packet", .vInt packet_id)]
                                  .val (some (walk data2 msg_length2 xdata_point result))
                            if framectrl &&& 0x0800 ≠ 0 then
                              match List.lookup xiaomi_mac_reversed aeskeyslist with
                              | none => .val none
                              | some key =>
                                let nonce :=
                                  xiaomi_mac_reversed ++
                                    pySlice data ((xiaomi_index : Int) + 5) ((xiaomi_index : Int) + 7) ++
                                    pySlice data ((xiaomi_index : Int) + 7) ((xiaomi_index : Int) + 8)
                                let region :=
                                  pySlice data (xdata_point : Int) ((msg_length : Int) - 1)
                                match decrypt_payload dv region key nonce with
                                | none => .val none
                                | some decrypted_payload =>
                                  let msg_length2 :=
                                    msg_length - region.length + decrypted_payload.length
                                  let data2 :=
                                    pySlice data 0 (xdata_point : Int) ++ decrypted_payload ++
                                      pySliceFrom data (-1)
                                  finish data2 msg_length2
                            else finish data msg_length
                    | _ => .exn "struct.error"
                | _ => .exn "struct.error"

/-- The source's `parse_raw_message` itself: the AEAD primitive instantiated
with the modelled `Cryptodome` AES-CCM `decrypt_and_verify`. -/
def parse_raw_message (data0 : Option (List Nat)) (aeskeyslist : List (List Nat × List Nat))
    (whitelist : List (List Nat)) (report_unknown : Bool) : PRes (Option Dict) :=
  parse_raw_message_dv ccmDecryptAndVerify data0 aeskeyslist whitelist report_unknown

/-!
Observers: pure views of the quantities `parse_raw_message` computes from a
frame, used to state the claims.  Each one mirrors the corresponding
expression of the source (same offsets, same slices) and is `none` when the
parser would not reach the point where the source computes it.
-/

/-- The extended-framing test of source line 196: byte 3 equals `0x0d`. -/
def is_ext_of (d : List Nat) : Option Bool :=
  (d[3]?).map (fun b3 => b3 == 0x0d)

/-- The vendor-signature offset of source line 198. -/
def xiaomi_index_of (d : List Nat) : Option Nat :=
  (d[3]?).bind (fun b3 =>
    pyFind d [0x16, 0x95, 0xFE] (if b3 = 0x0d then 30 else 0) d.length)

/-- The flags-structure offset of source lines 202-208 (`adv_index`, after the
`adv_index2` override). -/
def adv_index_of (d : List Nat) : Option Nat :=
  (d[3]?).bind (fun b3 =>
    let s := if b3 = 0x0d then 29 else 14
    match pyFind d [0x15, 0x16, 0x95] s (3 + s) with
    | some i => some i
    | none => pyFind d [0x02, 0x01, 0x06] s (3 + s))

/-- The envelope-embedded address `xiaomi_mac_reversed` of source line 214. -/
def xmac_of (d : List Nat) : Option (List Nat) :=
  (xiaomi_index_of d).map (fun (xi : Nat) => pySlice d ((xi : Int) + 8) ((xi : Int) + 14))

/-- The header-embedded address `source_mac_reversed` of source lines 215-216. -/
def srcmac_of (d : List Nat) : Option (List Nat) :=
  (d[3]?).bind (fun b3 =>
    (adv_index_of d).map (fun (ai : Nat) =>
      let mac_index : Int := if b3 = 0x0d then (ai : Int) - 14 else (ai : Int)
      pySlice d (mac_index - 7) (mac_index - 1)))

/-- The frame-control word of source line 243 (`struct.unpack(">H", ...)`),
`none` when the two bytes are not both inside the frame. -/
def framectrl_of (d : List Nat) : Option Nat :=
  (xiaomi_index_of d).bind (fun xi =>
    match pySlice d ((xi : Int) + 3) ((xi : Int) + 5) with
    | [f0, f1] => some (256 * f0 + f1)
    | _ => none)

/-- The vendor-data start offset of source lines 248-264. -/
def xdata_point_of (d : List Nat) : Option Nat :=
  (xiaomi_index_of d).bind (fun xi =>
    (framectrl_of d).map (fun (fc : Nat) => (if fc &&& 0x2000 ≠ 0 then 1 else 0) + xi + 14))

/-- The encrypted region `data[xdata_point:msg_length - 1]` of source line 284. -/
def region_of (d : List Nat) : Option (List Nat) :=
  (d[2]?).bind (fun (b2 : Nat) =>
    (xdata_point_of d).map (fun (p : Nat) =>
      pySlice d (p : Int) (((b2 + 3 : Nat) : Int) - 1)))

/-- The 9-byte nonce prefix assembled at source lines 276-282. -/
def nonce_of (d : List Nat) : Option (List Nat) :=
  (xiaomi_index_of d).bind (fun xi =>
    (xmac_of d).map (fun (mac : List Nat) =>
      mac ++ pySlice d ((xi : Int) + 5) ((xi : Int) + 7) ++
        pySlice d ((xi : Int) + 7) ((xi : Int) + 8)))

/-- The RSSI value computed at source lines 223-228 from the original frame:
the signed byte at absolute offset 18 (extended framing) or at the declared
frame end minus one (legacy framing), negated when positive. -/
def rssi_val_of (d : List Nat) : Int :=
  match d[3]?, d[2]? with
  | some b3, some b2 =>
    let rssi_index : Int := if b3 = 0x0d then 18 else ((b2 + 3 : Nat) : Int) - 1
    match pySlice d rssi_index (rssi_index + 1) with
    | [rb] =>
      let r := toSigned rb
      if 0 < r then -r else r
    | _ => 0
  | _, _ => 0

/-!
Concrete frames used as witnesses and counterexamples.  All are legacy
(non-extended) advertising reports with the vendor signature `16 95 FE` at
offset 18, device-type tag `AA 01`, packet counter `0x5A` and the device
address `AA BB CC DD EE FF` (wire order) embedded at bytes 7-13 and again at
bytes 26-32.
-/

/-- A well-formed unencrypted frame with one battery sub-record
`0A 10 01 64` and RSSI byte `0xC8` (-56 dBm). -/
def frameHappy : List Nat :=
  [0x04, 0x3E, 0x22, 0x02, 0x01, 0x00, 0x00, 0xAA, 0xBB, 0xCC, 0xDD, 0xEE, 0xFF, 0x15,
   0x02, 0x01, 0x06, 0x11, 0x16, 0x95, 0xFE, 0x40, 0x00, 0xAA, 0x01, 0x5A,
   0xAA, 0xBB, 0xCC, 0xDD, 0xEE, 0xFF, 0x0A, 0x10, 0x01, 0x64, 0xC8]

/-- A frame whose single sub-record declares value length 5 while only the
final RSSI byte remains in the buffer: its 3-byte vendor data region is
`0A 10 05`, so the value span `[35, 40)` lies entirely at or past the
declared data end 35 and past the footer boundary 33, and the decoded
battery byte is the RSSI byte `0x64`. -/
def frameC2 : List Nat :=
  [0x04, 0x3E, 0x21, 0x02, 0x01, 0x00, 0x00, 0xAA, 0xBB, 0xCC, 0xDD, 0xEE, 0xFF, 0x15,
   0x02, 0x01, 0x06, 0x11, 0x16, 0x95, 0xFE, 0x40, 0x00, 0xAA, 0x01, 0x5A,
   0xAA, 0xBB, 0xCC, 0xDD, 0xEE, 0xFF, 0x0A, 0x10, 0x05, 0x64]

/-- The 16-byte AES key provisioned for the device `AA BB CC DD EE FF`. -/
def keyC : List Nat := [0, 1, 2, 3, 4, 5, 6, 7, 8, 9, 10, 11, 12, 13, 14, 15]

/-- Key table binding the wire-order address to `keyC`. -/
def keysC : List (List Nat × List Nat) := [([0xAA, 0xBB, 0xCC, 0xDD, 0xEE, 0xFF], keyC)]

/-- An encrypted frame (frame control `0x4800`) whose 7-byte vendor data
region `01 02 03 40 47 40 18` is an empty ciphertext followed by the 3-byte
payload counter `01 02 03` and a tag that verifies under `keyC`: decryption
succeeds with an empty plaintext, after which the walker cannot read a
length byte. -/
def frameC1 : List Nat :=
  [0x04, 0x3E, 0x25, 0x02, 0x01, 0x00, 0x00, 0xAA, 0xBB, 0xCC, 0xDD, 0xEE, 0xFF, 0x15,
   0x02, 0x01, 0x06, 0x11, 0x16, 0x95, 0xFE, 0x48, 0x00, 0xAA, 0x01, 0x5A,
   0xAA, 0xBB, 0xCC, 0xDD, 0xEE, 0xFF, 0x01, 0x02, 0x03, 0x40, 0x47, 0x40, 0x18, 0xC8]

/-- `frameC1` with the last tag byte flipped (`18` to `19`), so authenticated
decryption fails. -/
def frameC7 : List Nat :=
  [0x04, 0x3E, 0x25, 0x02, 0x01, 0x00, 0x00, 0xAA, 0xBB, 0xCC, 0xDD, 0xEE, 0xFF, 0x15,
   0x02, 0x01, 0x06, 0x11, 0x16, 0x95, 0xFE, 0x48, 0x00, 0xAA, 0x01, 0x5A,
   0xAA, 0xBB, 0xCC, 0xDD, 0xEE, 0xFF, 0x01, 0x02, 0x03, 0x40, 0x47, 0x40, 0x19, 0xC8]

/-- `frameHappy` with the first byte of the header-embedded address changed
(`AA` to `AB` at offset 7), so the two embedded addresses differ. -/
def frameC3 : List Nat :=
  [0x04, 0x3E, 0x22, 0x02, 0x01, 0x00, 0x00, 0xAB, 0xBB, 0xCC, 0xDD, 0xEE, 0xFF, 0x15,
   0x02, 0x01, 0x06, 0x11, 0x16, 0x95, 0xFE, 0x40, 0x00, 0xAA, 0x01, 0x5A,
   0xAA, 0xBB, 0xCC, 0xDD, 0xEE, 0xFF, 0x0A, 0x10, 0x01, 0x64, 0xC8]

/-- `frameHappy` with a wrong declared length byte (`0x23` instead of
`0x22` at offset 2), so `data[2] + 3` does not equal the buffer length. -/
def frameC4 : List Nat :=
  [0x04, 0x3E, 0x23, 0x02, 0x01, 0x00, 0x00, 0xAA, 0xBB, 0xCC, 0xDD, 0xEE, 0xFF, 0x15,
   0x02, 0x01, 0x06, 0x11, 0x16, 0x95, 0xFE, 0x40, 0x00, 0xAA, 0x01, 0x5A,
   0xAA, 0xBB, 0xCC, 0xDD, 0xEE, 0xFF, 0x0A, 0x10, 0x01, 0x64, 0xC8]
theorem pyBound_le_len (len : Nat) (i : Int) : pyBound len i ≤ len := by
  rw [pyBound]
  split
  · omega
  · omega

theorem length_pySlice (l : List Nat) (a b : Int) :
    (pySlice l a b).length = pyBound l.length b - pyBound l.length a := by
  have hb := pyBound_le_len l.length b
  unfold pySlice
  rw [List.length_drop, List.length_take]
  omega

theorem pyBound_nonneg_le (len : Nat) (i : Int) (h0 : 0 ≤ i) (h : i ≤ (len : Int)) :
    pyBound len i = i.toNat := by
  rw [pyBound]
  split
  · omega
  · omega

theorem pyFindAux_bounds (l needle : List Nat) (fin : Nat) :
    ∀ fuel i j, pyFindAux l needle fin i fuel = some j →
      i ≤ j ∧ j + needle.length ≤ fin ∧
        pySlice l (j : Int) ((j + needle.length : Nat) : Int) = needle := by
  intro fuel
  induction fuel with
  | zero => intro i j h; simp [pyFindAux] at h
  | succ n ih =>
    intro i j h
    simp only [pyFindAux] at h
    split at h
    · split at h
      · rename_i hle heq
        cases h
        exact ⟨Nat.le_refl _, hle, heq⟩
      · have := ih (i + 1) j h
        exact ⟨by omega, this.2.1, this.2.2⟩
    · simp at h

theorem pyFind_bounds (l needle : List Nat) (start fin : Nat) (j : Nat)
    (h : pyFind l needle start fin = some j) :
    start ≤ j ∧ j + needle.length ≤ fin ∧ j + needle.length ≤ l.length := by
  have := pyFindAux_bounds l needle (min fin l.length) (l.length + 1) start j h
  exact ⟨this.1, by omega, by omega⟩

/-!
Grounding of the modelled AES-CCM primitive against the published standard
test vectors.
-/

/-- Every entry of the packed S-box table agrees with the GF(2^8)
inverse-plus-affine definition of FIPS-197. -/
theorem sbox_table_correct :
    (List.range 256).all (fun b => sbox b == sboxRef b) = true := by decide

/-- FIPS-197 Appendix C.1: AES-128 example vector. -/
theorem aes_fips197_app_c1 :
    aesEncryptBlock
      [0x00, 0x01, 0x02, 0x03, 0x04, 0x05, 0x06, 0x07,
       0x08, 0x09, 0x0a, 0x0b, 0x0c, 0x0d, 0x0e, 0x0f]
      [0x00, 0x11, 0x22, 0x33, 0x44, 0x55, 0x66, 0x77,
       0x88, 0x99, 0xaa, 0xbb, 0xcc, 0xdd, 0xee, 0xff] =
    [0x69, 0xc4, 0xe0, 0xd8, 0x6a, 0x7b, 0x04, 0x30,
     0xd8, 0xcd, 0xb7, 0x80, 0x70, 0xb4, 0xc5, 0x5a] := by decide

/-- FIPS-197 Appendix B: AES-128 cipher example. -/
theorem aes_fips197_app_b :
    aesEncryptBlock
      [0x2b, 0x7e, 0x15, 0x16, 0x28, 0xae, 0xd2, 0xa6,
       0xab, 0xf7, 0x15, 0x88, 0x09, 0xcf, 0x4f, 0x3c]
      [0x32, 0x43, 0xf6, 0xa8, 0x88, 0x5a, 0x30, 0x8d,
       0x31, 0x31, 0x98, 0xa2, 0xe0, 0x37, 0x07, 0x34] =
    [0x39, 0x25, 0x84, 0x1d, 0x02, 0xdc, 0x09, 0xfb,
     0xdc, 0x11, 0x85, 0x97, 0x19, 0x6a, 0x0b, 0x32] := by decide

/-- RFC 3610 packet vector 1, checked through the decrypt-and-verify
direction: decrypting the published ciphertext with the published key,
nonce, associated data and 8-byte tag yields the published plaintext.  The
tag width is 8 here, so the check is phrased on the internal pieces the
4-byte-tag entry point is built from. -/
theorem ccm_rfc3610_vector1 :
    xorBytes
      [0x58, 0x8c, 0x97, 0x9a, 0x61, 0xc6, 0x63, 0xd2, 0xf0, 0x66, 0xd0, 0xc2,
       0xc0, 0xf9, 0x89, 0x80, 0x6d, 0x5f, 0x6b, 0x61, 0xda, 0xc3, 0x84]
      (ccmStream
        [0xc0, 0xc1, 0xc2, 0xc3, 0xc4, 0xc5, 0xc6, 0xc7,
         0xc8, 0xc9, 0xca, 0xcb, 0xcc, 0xcd, 0xce, 0xcf]
        [0x00, 0x00, 0x00, 0x03, 0x02, 0x01, 0x00, 0xa0, 0xa1, 0xa2, 0xa3, 0xa4, 0xa5]
        2 23) =
      [0x08, 0x09, 0x0a, 0x0b, 0x0c, 0x0d, 0x0e, 0x0f, 0x10, 0x11, 0x12, 0x13,
       0x14, 0x15, 0x16, 0x17, 0x18, 0x19, 0x1a, 0x1b, 0x1c, 0x1d, 0x1e] ∧
    xorBytes
      ((ccmMacT
        [0xc0, 0xc1, 0xc2, 0xc3, 0xc4, 0xc5, 0xc6, 0xc7,
         0xc8, 0xc9, 0xca, 0xcb, 0xcc, 0xcd, 0xce, 0xcf]
        [0x00, 0x00, 0x00, 0x03, 0x02, 0x01, 0x00, 0xa0, 0xa1, 0xa2, 0xa3, 0xa4, 0xa5]
        [0x00, 0x01, 0x02, 0x03, 0x04, 0x05, 0x06, 0x07]
        [0x08, 0x09, 0x0a, 0x0b, 0x0c, 0x0d, 0x0e, 0x0f, 0x10, 0x11, 0x12, 0x13,
         0x14, 0x15, 0x16, 0x17, 0x18, 0x19, 0x1a, 0x1b, 0x1c, 0x1d, 0x1e]
        2 8).take 8)
      ((aesEncryptBlock
        [0xc0, 0xc1, 0xc2, 0xc3, 0xc4, 0xc5, 0xc6, 0xc7,
         0xc8, 0xc9, 0xca, 0xcb, 0xcc, 0xcd, 0xce, 0xcf]
        (ccmCtrBlock
          [0x00, 0x00, 0x00, 0x03, 0x02, 0x01, 0x00, 0xa0, 0xa1, 0xa2, 0xa3, 0xa4, 0xa5]
          2 0)).take 8) =
      [0x17, 0xe8, 0xd1, 0x2c, 0xfd, 0xf9, 0x26, 0xe0] := by
  exact ⟨by decide, by decide⟩

/-!
Lemmas about the dict operations and the sub-record walker.
-/

/-- `dictSet` on a different key does not affect a lookup. -/
theorem dictSet_lookup_ne (d : Dict) (k k2 : String) (v : XValue) (h : k2 ≠ k) :
    List.lookup k (dictSet d k2 v) = List.lookup k d := by
  have hbe : (k == k2) = false := beq_eq_false_iff_ne.mpr (Ne.symm h)
  induction d with
  | nil => simp [dictSet, List.lookup, hbe]
  | cons hd t ih =>
    obtain ⟨k3, v3⟩ := hd
    by_cases hk : k3 = k2
    · subst hk
      simp [dictSet, List.lookup, hbe]
    · simp only [dictSet, if_neg hk]
      by_cases hkk : k = k3
      · subst hkk
        simp [List.lookup]
      · have hbe2 : (k == k3) = false := beq_eq_false_iff_ne.mpr hkk
        simp [List.lookup, hbe2, ih]

/-- Setting a key makes it present with the new value. -/
theorem dictSet_lookup_self (d : Dict) (k : String) (v : XValue) :
    List.lookup k (dictSet d k v) = some v := by
  induction d with
  | nil => simp [dictSet, List.lookup]
  | cons hd t ih =>
    obtain ⟨k3, v3⟩ := hd
    by_cases hk : k3 = k
    · subst hk
      simp [dictSet, List.lookup]
    · have hbe2 : (k == k3) = false := beq_eq_false_iff_ne.mpr (fun hh => hk hh.symm)
      simp [dictSet, if_neg hk, List.lookup, hbe2, ih]

/-- `dictSet` never removes a key. -/
theorem dictSet_lookup_presence (d : Dict) (k k2 : String) (v : XValue)
    (h : List.lookup k d ≠ none) : List.lookup k (dictSet d k2 v) ≠ none := by
  by_cases hbe : k = k2
  · subst hbe
    rw [dictSet_lookup_self]
    simp
  · rw [dictSet_lookup_ne d k k2 v (fun hh => hbe hh.symm)]
    exact h
/-- `dictUpdate` never removes a key. -/
theorem dictUpdate_presence (e d : Dict) (k : String)
    (h : List.lookup k d ≠ none) : List.lookup k (dictUpdate d e) ≠ none := by
  induction e generalizing d with
  | nil => simpa [dictUpdate] using h
  | cons kv t ih =>
    simp only [dictUpdate, List.foldl] at ih ⊢
    exact ih (dictSet d kv.1 kv.2) (dictSet_lookup_presence d k kv.1 kv.2 h)

/-- `dictUpdate` with entries that avoid a key does not affect its lookup. -/
theorem dictUpdate_lookup_ne (e d : Dict) (k : String)
    (h : ∀ kv ∈ e, kv.1 ≠ k) :
    List.lookup k (dictUpdate d e) = List.lookup k d := by
  induction e generalizing d with
  | nil => simp [dictUpdate]
  | cons kv t ih =>
    simp only [dictUpdate, List.foldl] at ih ⊢
    rw [ih (dictSet d kv.1 kv.2) (fun x hx => h x (List.mem_cons_of_mem kv hx))]
    exact dictSet_lookup_ne d k kv.1 kv.2 (h kv (List.mem_cons_self kv t))

/-- `parse_xiaomi_value` only ever yields measurement keys, never the
reserved `rssi` entry of the result record. -/
theorem parse_xiaomi_value_no_rssi (hv tc : List Nat) (r : Dict)
    (h : parse_xiaomi_value hv tc = some r) :
    ∀ kv ∈ r, kv.1 ≠ "rssi" := by
  rcases hv with _ | ⟨a, _ | ⟨b, _ | ⟨c, _ | ⟨d2, _ | ⟨e, t⟩⟩⟩⟩⟩ <;>
    simp only [parse_xiaomi_value, List.length_nil, List.length_cons,
      List.length_eq_zero] at h <;>
    norm_num at h <;>
    (try split_ifs at h) <;>
    first
      | (injection h with h2; subst h2; simp)
      | (obtain ⟨h3, h4⟩ := h; subst h4; simp)
      | simp at h

/-- Different sufficient fuels give the same walker result: the fuel is
irrelevant as soon as it exceeds `msg_length - xdata_point`, which the
`walk` wrapper guarantees, so the fuel is a proof device, not behaviour. -/
theorem walkAux_fuel_sufficient (data : List Nat) :
    ∀ (fuel1 fuel2 m p : Nat) (r0 : Dict), m - p < fuel1 → m - p < fuel2 →
      walkAux data fuel1 m p r0 = walkAux data fuel2 m p r0 := by
  intro fuel1
  induction fuel1 with
  | zero => intro fuel2 m p r0 h1 h2; omega
  | succ f1 ih =>
    intro fuel2 m p r0 h1 h2
    cases fuel2 with
    | zero => omega
    | succ f2 =>
      simp only [walkAux]
      cases hg : data[p + 2]? with
      | none => rfl
      | some L =>
        simp only
        by_cases hbr : m - 3 < p + 3 + L
        · rw [if_pos hbr, if_pos hbr]
        · rw [if_neg hbr, if_neg hbr]
          exact ih f2 m (p + 3 + L) _ (by omega) (by omega)

/-- A lookup of the reserved `rssi` key in the walker result always reflects
the initial record: sub-record merges never write it. -/
theorem walk_lookup_rssi (data : List Nat) :
    ∀ (fuel m p : Nat) (r0 : Dict) (v : XValue),
      List.lookup "rssi" (walkAux data fuel m p r0) = some v →
      List.lookup "rssi" r0 = some v := by
  intro fuel
  induction fuel with
  | zero => intro m p r0 v h; exact h
  | succ n ih =>
    intro m p r0 v h
    simp only [walkAux] at h
    cases hg : data[p + 2]? with
    | none =>
      rw [hg] at h
      simp at h
    | some L =>
      rw [hg] at h
      simp only at h
      have transfer : ∀ r2 : Dict,
          (r2 = match parse_xiaomi_value
              (pySlice data ((p : Int) + 3) ((p + 3 + L : Nat) : Int))
              (pySlice data (p : Int) ((p : Int) + 2)) with
            | some r => if r.isEmpty then r0 else dictUpdate r0 r
            | none => r0) →
          List.lookup "rssi" r2 = some v → List.lookup "rssi" r0 = some v := by
        intro r2 hr2 hl
        cases hres : parse_xiaomi_value
            (pySlice data ((p : Int) + 3) ((p + 3 + L : Nat) : Int))
            (pySlice data (p : Int) ((p : Int) + 2)) with
        | none => rw [hres] at hr2; subst hr2; exact hl
        | some r =>
          rw [hres] at hr2
          simp only at hr2
          by_cases hre : r.isEmpty = true
          · rw [if_pos hre] at hr2; subst hr2; exact hl
          · rw [if_neg hre] at hr2
            subst hr2
            rw [dictUpdate_lookup_ne r r0 "rssi"
              (parse_xiaomi_value_no_rssi _ _ r hres)] at hl
            exact hl
      by_cases hbr : m - 3 < p + 3 + L
      · rw [if_pos hbr] at h
        exact transfer _ rfl h
      · rw [if_neg hbr] at h
        exact transfer _ rfl (ih m (p + 3 + L) _ v h)

/-- The walker never removes a key present in its initial record: its result
is either the empty record (the aborted malformed-stream case) or a record
that still contains the key. -/
theorem walk_presence (key : String) (data : List Nat) :
    ∀ (fuel m p : Nat) (r0 : Dict), List.lookup key r0 ≠ none →
      walkAux data fuel m p r0 = [] ∨
        List.lookup key (walkAux data fuel m p r0) ≠ none := by
  intro fuel
  induction fuel with
  | zero => intro m p r0 h0; exact Or.inr h0
  | succ n ih =>
    intro m p r0 h0
    simp only [walkAux]
    cases hg : data[p + 2]? with
    | none => left; rfl
    | some L =>
      simp only
      have hr2 : List.lookup key
          (match parse_xiaomi_value
              (pySlice data ((p : Int) + 3) ((p + 3 + L : Nat) : Int))
              (pySlice data (p : Int) ((p : Int) + 2)) with
            | some r => if r.isEmpty then r0 else dictUpdate r0 r
            | none => r0) ≠ none := by
        cases hres : parse_xiaomi_value
            (pySlice data ((p : Int) + 3) ((p + 3 + L : Nat) : Int))
            (pySlice data (p : Int) ((p : Int) + 2)) with
        | none => simpa using h0
        | some r =>
          simp only
          by_cases hre : r.isEmpty = true
          · rw [if_pos hre]; exact h0
          · rw [if_neg hre]; exact dictUpdate_presence r r0 key h0
      by_cases hbr : m - 3 < p + 3 + L
      · rw [if_pos hbr]
        right
        exact hr2
      · rw [if_neg hbr]
        exact ih m (p + 3 + L) _ hr2

/-- Every sub-record start the walker visits is at or before the footer
boundary `msg_length - 3`, provided the first start is. -/
theorem walkStarts_bound (data : List Nat) :
    ∀ (fuel m p : Nat), p + 3 ≤ m →
      ∀ q ∈ walkStartsAux data fuel m p, q + 3 ≤ m := by
  intro fuel
  induction fuel with
  | zero => intro m p hp q hq; simp [walkStartsAux] at hq
  | succ n ih =>
    intro m p hp q hq
    simp only [walkStartsAux] at hq
    cases hg : data[p + 2]? with
    | none =>
      rw [hg] at hq
      simp at hq
      omega
    | some L =>
      rw [hg] at hq
      simp only at hq
      rcases List.mem_cons.mp hq with hq1 | hq2
      · omega
      · by_cases hbr : m - 3 < p + 3 + L
        · rw [if_pos hbr] at hq2
          simp at hq2
        · rw [if_neg hbr] at hq2
          exact ih m (p + 3 + L) (by omega) q hq2

/-!
The claims.
-/

/-- A one-byte Python slice fully inside the buffer is a singleton list. -/
theorem pySlice_singleton (l : List Nat) (i : Int) (h0 : 0 ≤ i)
    (h1 : i + 1 ≤ (l.length : Int)) : ∃ rb, pySlice l i (i + 1) = [rb] := by
  have hlen : (pySlice l i (i + 1)).length = 1 := by
    rw [length_pySlice, pyBound_nonneg_le l.length i h0 (by omega),
      pyBound_nonneg_le l.length (i + 1) (by omega) (by omega)]
    omega
  cases hsl : pySlice l i (i + 1) with
  | nil => rw [hsl] at hlen; simp at hlen
  | cons a t =>
    rw [hsl] at hlen
    simp at hlen
    exact ⟨a, by rw [hlen]⟩

/-- Inversion of a successful parse: any produced record is the walker
result starting from the four-field base record whose `rssi` entry is the
negate-if-positive signed byte read at the fixed RSSI offset of the original
frame (legacy: declared frame end minus one; extended: absolute offset 18). -/
theorem parse_success_shape
    (dv : List Nat → List Nat → List Nat → List Nat → List Nat → Option (List Nat))
    (d : List Nat) (k : List (List Nat × List Nat)) (w : List (List Nat)) (r : Bool)
    (res : Dict) (hp : parse_raw_message_dv dv (some d) k w r = .val (some res)) :
    ∃ (b3 b2 rb packet : Nat) (st mac : String) (data2 : List Nat) (m2 p2 : Nat),
      d[3]? = some b3 ∧ d[2]? = some b2 ∧
      pySlice d (if b3 = 0x0d then 18 else ((b2 + 3 : Nat) : Int) - 1)
        ((if b3 = 0x0d then 18 else ((b2 + 3 : Nat) : Int) - 1) + 1) = [rb] ∧
      res = walk data2 m2 p2
        [("rssi", .vInt (if 0 < toSigned rb then -toSigned rb else toSigned rb)),
         ("mac", .vStr mac), ("type", .vStr st), ("packet", .vInt packet)] := by
  cases h3 : d[3]? with
  | none => simp only [parse_raw_message_dv, h3] at hp; simp at hp
  | some b3 =>
  simp only [parse_raw_message_dv, h3] at hp
  cases hfind : pyFind d [0x16, 0x95, 0xFE] (if b3 = 0x0d then 30 else 0) d.length with
  | none => rw [hfind] at hp; simp at hp
  | some xi =>
  rw [hfind] at hp
  simp only at hp
  cases hadv : (match pyFind d [0x15, 0x16, 0x95] (if b3 = 0x0d then 29 else 14)
      (3 + if b3 = 0x0d then 29 else 14) with
    | some i => some i
    | none => pyFind d [0x02, 0x01, 0x06] (if b3 = 0x0d then 29 else 14)
        (3 + if b3 = 0x0d then 29 else 14)) with
  | none => rw [hadv] at hp; simp at hp
  | some ai =>
  rw [hadv] at hp
  simp only at hp
  cases h2 : d[2]? with
  | none => rw [h2] at hp; simp at hp
  | some b2 =>
  rw [h2] at hp
  simp only at hp
  by_cases hml : b2 + 3 ≠ d.length
  · rw [if_pos hml] at hp; simp at hp
  rw [if_neg hml] at hp
  by_cases hmm : pySlice d ((xi : Int) + 8) ((xi : Int) + 14) ≠
      pySlice d ((if b3 = 0x0d then (ai : Int) - 14 else (ai : Int)) - 7)
        ((if b3 = 0x0d then (ai : Int) - 14 else (ai : Int)) - 1)
  · rw [if_pos hmm] at hp; simp at hp
  rw [if_neg hmm] at hp
  by_cases hwm : w ≠ [] ∧ pySlice d ((xi : Int) + 8) ((xi : Int) + 14) ∉ w
  · rw [if_pos hwm] at hp; simp at hp
  rw [if_neg hwm] at hp
  cases hrsl : pySlice d (if b3 = 0x0d then 18 else ((b2 + 3 : Nat) : Int) - 1)
      ((if b3 = 0x0d then 18 else ((b2 + 3 : Nat) : Int) - 1) + 1) with
  | nil => rw [hrsl] at hp; simp at hp
  | cons rb tail =>
  cases tail with
  | cons rb2 rrest => rw [hrsl] at hp; simp at hp
  | nil =>
  rw [hrsl] at hp
  simp only at hp
  cases hlook : List.lookup (pySlice d ((xi : Int) + 5) ((xi : Int) + 7)) XIAOMI_TYPE_DICT with
  | none => rw [hlook] at hp; simp at hp
  | some st =>
  rw [hlook] at hp
  simp only at hp
  cases hsl : pySlice d ((xi : Int) + 3) ((xi : Int) + 5) with
  | nil => rw [hsl] at hp; simp at hp
  | cons f0 t0 =>
  cases t0 with
  | nil => rw [hsl] at hp; simp at hp
  | cons f1 t1 =>
  cases t1 with
  | cons f2 rest => rw [hsl] at hp; simp at hp
  | nil =>
  rw [hsl] at hp
  simp only at hp
  by_cases h40 : 256 * f0 + f1 &&& 0x4000 = 0
  · rw [if_pos h40] at hp; simp at hp
  rw [if_neg h40] at hp
  by_cases h3l : (if 256 * f0 + f1 &&& 0x2000 ≠ 0 then (-1 : Int) else 0) +
      ((b2 + 3 : Nat) : Int) - (xi : Int) - 15 < 3
  · rw [if_pos h3l] at hp; simp at hp
  rw [if_neg h3l] at hp
  by_cases hxl : (if 256 * f0 + f1 &&& 0x2000 ≠ 0 then (-1 : Int) else 0) +
      ((b2 + 3 : Nat) : Int) - (xi : Int) - 15 ≠
      (((pySlice d (((if 256 * f0 + f1 &&& 0x2000 ≠ 0 then 1 else 0) + xi + 14 : Nat) : Int)
        (-1)).length : Nat) : Int)
  · rw [if_pos hxl] at hp; simp at hp
  rw [if_neg hxl] at hp
  by_cases hen : 256 * f0 + f1 &&& 0x0800 ≠ 0
  · rw [if_pos hen] at hp
    cases hklk : List.lookup (pySlice d ((xi : Int) + 8) ((xi : Int) + 14)) k with
    | none => rw [hklk] at hp; simp at hp
    | some key =>
    rw [hklk] at hp
    simp only at hp
    cases hdp : decrypt_payload dv
        (pySlice d (((if 256 * f0 + f1 &&& 0x2000 ≠ 0 then 1 else 0) + xi + 14 : Nat) : Int)
          (((b2 + 3 : Nat) : Int) - 1)) key
        (pySlice d ((xi : Int) + 8) ((xi : Int) + 14) ++
          pySlice d ((xi : Int) + 5) ((xi : Int) + 7) ++
          pySlice d ((xi : Int) + 7) ((xi : Int) + 8)) with
    | none => rw [hdp] at hp; simp at hp
    | some pl =>
    rw [hdp] at hp
    simp only at hp
    cases hpk : (pySlice d 0 (((if 256 * f0 + f1 &&& 0x2000 ≠ 0 then 1 else 0) + xi + 14 : Nat) : Int) ++
        pl ++ pySliceFrom d (-1))[xi + 7]? with
    | none => rw [hpk] at hp; simp at hp
    | some packet =>
    rw [hpk] at hp
    simp only [PRes.val.injEq, Option.some_inj] at hp
    exact ⟨b3, b2, rb, packet, st, _, _, _, _, rfl, rfl, hrsl, hp.symm⟩
  · rw [if_neg hen] at hp
    cases hpk : d[xi + 7]? with
    | none => rw [hpk] at hp; simp at hp
    | some packet =>
    rw [hpk] at hp
    simp only [PRes.val.injEq, Option.some_inj] at hp
    exact ⟨b3, b2, rb, packet, st, _, _, _, _, rfl, rfl, hrsl, hp.symm⟩

/-- Claim C4 (amended): for a frame of at least 4 bytes, a declared length
byte that (plus the 3-byte header adjustment) differs from the actual buffer
length forces rejection with `None` for every key table, every whitelist and
every AEAD primitive `dv` — so no address extraction, whitelist membership,
key lookup or decryption can influence the outcome.  A frame shorter than
4 bytes never reaches the length check: the source's very first subscript
`data[3]` raises an uncaught `IndexError` (see the counterexample), so such
frames escape with an exception rather than returning `None`.
`parse_raw_message` is the instance `dv := ccmDecryptAndVerify`. -/
theorem c4_length_mismatch_rejected
    (dv : List Nat → List Nat → List Nat → List Nat → List Nat → Option (List Nat))
    (d : List Nat) (k : List (List Nat × List Nat))
    (w : List (List Nat)) (r : Bool) :
    (4 ≤ d.length → d.getD 2 0 + 3 ≠ d.length →
      parse_raw_message_dv dv (some d) k w r = .val none) ∧
    (d.length < 4 → parse_raw_message_dv dv (some d) k w r = .exn "IndexError") := by
  constructor
  · intro h4 hlen
    obtain ⟨b3, h3⟩ : ∃ b, d[3]? = some b := by
      cases hx : d[3]? with
      | none => exact absurd (List.getElem?_eq_none_iff.mp hx) (by omega)
      | some b => exact ⟨b, rfl⟩
    obtain ⟨b2, h2⟩ : ∃ b, d[2]? = some b := by
      cases hx : d[2]? with
      | none => exact absurd (List.getElem?_eq_none_iff.mp hx) (by omega)
      | some b => exact ⟨b, rfl⟩
    have hg : d.getD 2 0 = b2 := by
      rw [List.getD_eq_getElem?_getD, h2]
      rfl
    rw [hg] at hlen
    simp only [parse_raw_message_dv, h3, h2]
    cases hfind : pyFind d [0x16, 0x95, 0xFE] (if b3 = 0x0d then 30 else 0) d.length with
    | none => rfl
    | some xi =>
      simp only
      cases hadv : (match pyFind d [0x15, 0x16, 0x95] (if b3 = 0x0d then 29 else 14)
          (3 + if b3 = 0x0d then 29 else 14) with
        | some i => some i
        | none => pyFind d [0x02, 0x01, 0x06] (if b3 = 0x0d then 29 else 14)
            (3 + if b3 = 0x0d then 29 else 14)) with
      | none => rfl
      | some ai =>
        simp only
        rw [if_pos hlen]
  · intro hlt
    have h3 : d[3]? = none := List.getElem?_eq_none (by omega)
    simp only [parse_raw_message_dv, h3]

/-- Claim C3: whenever the 6-byte address embedded in the vendor envelope
(bytes 8-14 past the signature) and the 6-byte address embedded before the
flags structure differ byte-wise in wire order, the parser returns `None`,
for every key table, whitelist, `report_unknown` flag and AEAD primitive. -/
theorem c3_address_mismatch_rejected
    (dv : List Nat → List Nat → List Nat → List Nat → List Nat → Option (List Nat))
    (d : List Nat) (k : List (List Nat × List Nat))
    (w : List (List Nat)) (r : Bool) (xm sm : List Nat)
    (hx : xmac_of d = some xm) (hs : srcmac_of d = some sm) (hne : xm ≠ sm) :
    parse_raw_message_dv dv (some d) k w r = .val none := by
  cases h3 : d[3]? with
  | none => simp [xmac_of, xiaomi_index_of, h3] at hx
  | some b3 =>
  simp only [xmac_of, xiaomi_index_of, h3, Option.some_bind] at hx
  cases hfind : pyFind d [0x16, 0x95, 0xFE] (if b3 = 0x0d then 30 else 0) d.length with
  | none => simp [hfind] at hx
  | some xi =>
  simp only [hfind, Option.map_some'] at hx
  simp only [srcmac_of, adv_index_of, h3, Option.some_bind] at hs
  cases hadv : (match pyFind d [0x15, 0x16, 0x95] (if b3 = 0x0d then 29 else 14)
      (3 + if b3 = 0x0d then 29 else 14) with
    | some i => some i
    | none => pyFind d [0x02, 0x01, 0x06] (if b3 = 0x0d then 29 else 14)
        (3 + if b3 = 0x0d then 29 else 14)) with
  | none => rw [hadv] at hs; simp at hs
  | some ai =>
  rw [hadv] at hs
  simp only [Option.map_some'] at hs
  have h4 : 3 < d.length := by
    by_contra hc
    rw [List.getElem?_eq_none (by omega)] at h3
    cases h3
  obtain ⟨b2, h2⟩ : ∃ b, d[2]? = some b := by
    cases hx2 : d[2]? with
    | none => exact absurd (List.getElem?_eq_none_iff.mp hx2) (by omega)
    | some b => exact ⟨b, rfl⟩
  rw [Option.some_inj] at hx hs
  simp only [parse_raw_message_dv, h3, hfind, hadv, h2]
  by_cases hml : b2 + 3 ≠ d.length
  · rw [if_pos hml]
  · rw [if_neg hml]
    rw [hx, hs, if_pos hne]

/-- Claim C9: with an empty whitelist the parser behaves exactly as if the
frame's own envelope address were whitelisted (no membership restriction),
and with a non-empty whitelist not containing the wire-order envelope
address the parser returns `None`. -/
theorem c9_whitelist_semantics
    (dv : List Nat → List Nat → List Nat → List Nat → List Nat → Option (List Nat))
    (d : List Nat) (k : List (List Nat × List Nat))
    (w : List (List Nat)) (r : Bool) (m : List Nat)
    (hx : xmac_of d = some m) :
    parse_raw_message_dv dv (some d) k [] r = parse_raw_message_dv dv (some d) k [m] r ∧
      (w ≠ [] → m ∉ w → parse_raw_message_dv dv (some d) k w r = .val none) := by
  cases h3 : d[3]? with
  | none => simp [xmac_of, xiaomi_index_of, h3] at hx
  | some b3 =>
  simp only [xmac_of, xiaomi_index_of, h3, Option.some_bind] at hx
  cases hfind : pyFind d [0x16, 0x95, 0xFE] (if b3 = 0x0d then 30 else 0) d.length with
  | none => simp [hfind] at hx
  | some xi =>
  simp only [hfind, Option.map_some'] at hx
  rw [Option.some_inj] at hx
  have h4 : 3 < d.length := by
    by_contra hc
    rw [List.getElem?_eq_none (by omega)] at h3
    cases h3
  obtain ⟨b2, h2⟩ : ∃ b, d[2]? = some b := by
    cases hx2 : d[2]? with
    | none => exact absurd (List.getElem?_eq_none_iff.mp hx2) (by omega)
    | some b => exact ⟨b, rfl⟩
  constructor
  · simp only [parse_raw_message_dv, h3, hfind, h2]
    cases hadv : (match pyFind d [0x15, 0x16, 0x95] (if b3 = 0x0d then 29 else 14)
        (3 + if b3 = 0x0d then 29 else 14) with
      | some i => some i
      | none => pyFind d [0x02, 0x01, 0x06] (if b3 = 0x0d then 29 else 14)
          (3 + if b3 = 0x0d then 29 else 14)) with
    | none => rfl
    | some ai =>
    simp only
    by_cases hml : b2 + 3 ≠ d.length
    · rw [if_pos hml, if_pos hml]
    · rw [if_neg hml, if_neg hml]
      by_cases hmm : pySlice d ((xi : Int) + 8) ((xi : Int) + 14) ≠
          pySlice d ((if b3 = 0x0d then (ai : Int) - 14 else (ai : Int)) - 7)
            ((if b3 = 0x0d then (ai : Int) - 14 else (ai : Int)) - 1)
      · rw [if_pos hmm, if_pos hmm]
      · rw [if_neg hmm, if_neg hmm]
        have hwl0 : ¬(([] : List (List Nat)) ≠ [] ∧
            pySlice d ((xi : Int) + 8) ((xi : Int) + 14) ∉ ([] : List (List Nat))) := by
          simp
        have hwl : ¬([m] ≠ [] ∧ pySlice d ((xi : Int) + 8) ((xi : Int) + 14) ∉ [m]) := by
          simp [hx]
        rw [if_neg hwl0, if_neg hwl]
  · intro hw hmem
    simp only [parse_raw_message_dv, h3, hfind, h2]
    cases hadv : (match pyFind d [0x15, 0x16, 0x95] (if b3 = 0x0d then 29 else 14)
        (3 + if b3 = 0x0d then 29 else 14) with
      | some i => some i
      | none => pyFind d [0x02, 0x01, 0x06] (if b3 = 0x0d then 29 else 14)
          (3 + if b3 = 0x0d then 29 else 14)) with
    | none => rfl
    | some ai =>
    simp only
    by_cases hml : b2 + 3 ≠ d.length
    · rw [if_pos hml]
    · rw [if_neg hml]
      by_cases hmm : pySlice d ((xi : Int) + 8) ((xi : Int) + 14) ≠
          pySlice d ((if b3 = 0x0d then (ai : Int) - 14 else (ai : Int)) - 7)
            ((if b3 = 0x0d then (ai : Int) - 14 else (ai : Int)) - 1)
      · rw [if_pos hmm]
      · rw [if_neg hmm]
        have hwl : w ≠ [] ∧ pySlice d ((xi : Int) + 8) ((xi : Int) + 14) ∉ w := by
          rw [hx]
          exact ⟨hw, hmem⟩
        rw [if_pos hwl]

/-- Claim C6: for every frame whose frame-control encrypted bit `0x0800` is
set and whose envelope address has no entry in the key table, the parser
returns `None`, uniformly in the AEAD primitive `dv` — no decryption is
attempted, since the result is the same for every conceivable decryption
function. -/
theorem c6_encrypted_missing_key_silent_drop
    (dv : List Nat → List Nat → List Nat → List Nat → List Nat → Option (List Nat))
    (d : List Nat) (k : List (List Nat × List Nat)) (w : List (List Nat)) (r : Bool)
    (fc : Nat) (xm : List Nat)
    (hfc : framectrl_of d = some fc) (henc : fc &&& 0x0800 ≠ 0)
    (hxm : xmac_of d = some xm) (hkey : List.lookup xm k = none) :
    parse_raw_message_dv dv (some d) k w r = .val none := by
  cases h3 : d[3]? with
  | none => simp [framectrl_of, xiaomi_index_of, h3] at hfc
  | some b3 =>
  simp only [framectrl_of, xiaomi_index_of, h3, Option.some_bind] at hfc
  cases hfind : pyFind d [0x16, 0x95, 0xFE] (if b3 = 0x0d then 30 else 0) d.length with
  | none => simp [hfind] at hfc
  | some xi =>
  rw [hfind] at hfc
  simp only [Option.some_bind] at hfc
  simp only [xmac_of, xiaomi_index_of, h3, Option.some_bind, hfind,
    Option.map_some'] at hxm
  rw [Option.some_inj] at hxm
  have h4 : 3 < d.length := by
    by_contra hc
    rw [List.getElem?_eq_none (by omega)] at h3
    cases h3
  obtain ⟨b2, h2⟩ : ∃ b, d[2]? = some b := by
    cases hx2 : d[2]? with
    | none => exact absurd (List.getElem?_eq_none_iff.mp hx2) (by omega)
    | some b => exact ⟨b, rfl⟩
  rcases hsl : pySlice d ((xi : Int) + 3) ((xi : Int) + 5) with _ | ⟨f0, _ | ⟨f1, _ | ⟨f2, rest⟩⟩⟩
  · rw [hsl] at hfc; simp at hfc
  · rw [hsl] at hfc; simp at hfc
  case cons.cons.cons => rw [hsl] at hfc; simp at hfc
  case cons.cons.nil =>
  rw [hsl] at hfc
  simp only [Option.some_inj] at hfc
  simp only [parse_raw_message_dv, h3, hfind, h2]
  cases hadv : (match pyFind d [0x15, 0x16, 0x95] (if b3 = 0x0d then 29 else 14)
      (3 + if b3 = 0x0d then 29 else 14) with
    | some i => some i
    | none => pyFind d [0x02, 0x01, 0x06] (if b3 = 0x0d then 29 else 14)
        (3 + if b3 = 0x0d then 29 else 14)) with
  | none => rfl
  | some ai =>
  simp only
  by_cases hml : b2 + 3 ≠ d.length
  · rw [if_pos hml]
  case neg =>
  rw [if_neg hml]
  by_cases hmm : pySlice d ((xi : Int) + 8) ((xi : Int) + 14) ≠
      pySlice d ((if b3 = 0x0d then (ai : Int) - 14 else (ai : Int)) - 7)
        ((if b3 = 0x0d then (ai : Int) - 14 else (ai : Int)) - 1)
  · rw [if_pos hmm]
  case neg =>
  rw [if_neg hmm]
  by_cases hwm : w ≠ [] ∧ pySlice d ((xi : Int) + 8) ((xi : Int) + 14) ∉ w
  · rw [if_pos hwm]
  case neg =>
  rw [if_neg hwm]
  have hfb := pyFind_bounds d [0x16, 0x95, 0xFE] (if b3 = 0x0d then 30 else 0) d.length xi hfind
  obtain ⟨rb, hrb⟩ : ∃ rb, pySlice d (if b3 = 0x0d then 18 else ((b2 + 3 : Nat) : Int) - 1)
      ((if b3 = 0x0d then 18 else ((b2 + 3 : Nat) : Int) - 1) + 1) = [rb] := by
    apply pySlice_singleton
    · by_cases hb3 : b3 = 0x0d
      · simp [hb3]
      · simp [hb3]; omega
    · by_cases hb3 : b3 = 0x0d
      · simp only [if_pos hb3]
        rw [if_pos hb3] at hfb
        simp at hfb
        omega
      · simp only [if_neg hb3]
        omega
  rw [hrb]
  simp only
  cases hlook : List.lookup (pySlice d ((xi : Int) + 5) ((xi : Int) + 7)) XIAOMI_TYPE_DICT with
  | none => rfl
  | some st =>
  simp only
  rw [hsl]
  simp only
  by_cases h40 : 256 * f0 + f1 &&& 0x4000 = 0
  · rw [if_pos h40]
  case neg =>
  rw [if_neg h40]
  by_cases h3l : (if 256 * f0 + f1 &&& 0x2000 ≠ 0 then (-1 : Int) else 0) +
      ((b2 + 3 : Nat) : Int) - (xi : Int) - 15 < 3
  · rw [if_pos h3l]
  case neg =>
  rw [if_neg h3l]
  by_cases hxl : (if 256 * f0 + f1 &&& 0x2000 ≠ 0 then (-1 : Int) else 0) +
      ((b2 + 3 : Nat) : Int) - (xi : Int) - 15 ≠
      (((pySlice d (((if 256 * f0 + f1 &&& 0x2000 ≠ 0 then 1 else 0) + xi + 14 : Nat) : Int)
        (-1)).length : Nat) : Int)
  · rw [if_pos hxl]
  case neg =>
  rw [if_neg hxl]
  rw [if_pos (show 256 * f0 + f1 &&& 0x0800 ≠ 0 from by rw [hfc]; exact henc)]
  rw [hxm, hkey]

/-- Claim C7: for every encrypted frame on which `decrypt_payload` yields no
plaintext (authenticated decryption failed), the parser returns `None`: no
measurement is ever produced from a frame whose AEAD check failed. -/
theorem c7_aead_failure_returns_none
    (dv : List Nat → List Nat → List Nat → List Nat → List Nat → Option (List Nat))
    (d : List Nat) (k : List (List Nat × List Nat)) (w : List (List Nat)) (r : Bool)
    (fc : Nat) (xm key region nonce : List Nat)
    (hfc : framectrl_of d = some fc) (henc : fc &&& 0x0800 ≠ 0)
    (hxm : xmac_of d = some xm) (hkey : List.lookup xm k = some key)
    (hreg : region_of d = some region) (hnon : nonce_of d = some nonce)
    (hdec : decrypt_payload dv region key nonce = none) :
    parse_raw_message_dv dv (some d) k w r = .val none := by
  cases h3 : d[3]? with
  | none => simp [framectrl_of, xiaomi_index_of, h3] at hfc
  | some b3 =>
  simp only [framectrl_of, xiaomi_index_of, h3, Option.some_bind] at hfc
  cases hfind : pyFind d [0x16, 0x95, 0xFE] (if b3 = 0x0d then 30 else 0) d.length with
  | none => simp [hfind] at hfc
  | some xi =>
  rw [hfind] at hfc
  simp only [Option.some_bind] at hfc
  simp only [xmac_of, xiaomi_index_of, h3, Option.some_bind, hfind,
    Option.map_some'] at hxm
  rw [Option.some_inj] at hxm
  have h4 : 3 < d.length := by
    by_contra hc
    rw [List.getElem?_eq_none (by omega)] at h3
    cases h3
  obtain ⟨b2, h2⟩ : ∃ b, d[2]? = some b := by
    cases hx2 : d[2]? with
    | none => exact absurd (List.getElem?_eq_none_iff.mp hx2) (by omega)
    | some b => exact ⟨b, rfl⟩
  rcases hsl : pySlice d ((xi : Int) + 3) ((xi : Int) + 5) with _ | ⟨f0, _ | ⟨f1, _ | ⟨f2, rest⟩⟩⟩
  · rw [hsl] at hfc; simp at hfc
  · rw [hsl] at hfc; simp at hfc
  case cons.cons.cons => rw [hsl] at hfc; simp at hfc
  case cons.cons.nil =>
  rw [hsl] at hfc
  simp only [Option.some_inj] at hfc
  simp only [region_of, xdata_point_of, framectrl_of, xiaomi_index_of, h2, h3, hfind,
    Option.some_bind] at hreg
  rw [hsl] at hreg
  simp only [Option.some_bind, Option.map_some', Option.some_inj] at hreg
  simp only [nonce_of, xmac_of, xiaomi_index_of, h3, hfind, Option.some_bind,
    Option.map_some', Option.some_inj] at hnon
  rw [hxm] at hnon
  simp only [parse_raw_message_dv, h3, hfind, h2]
  cases hadv : (match pyFind d [0x15, 0x16, 0x95] (if b3 = 0x0d then 29 else 14)
      (3 + if b3 = 0x0d then 29 else 14) with
    | some i => some i
    | none => pyFind d [0x02, 0x01, 0x06] (if b3 = 0x0d then 29 else 14)
        (3 + if b3 = 0x0d then 29 else 14)) with
  | none => rfl
  | some ai =>
  simp only
  by_cases hml : b2 + 3 ≠ d.length
  · rw [if_pos hml]
  case neg =>
  rw [if_neg hml]
  by_cases hmm : pySlice d ((xi : Int) + 8) ((xi : Int) + 14) ≠
      pySlice d ((if b3 = 0x0d then (ai : Int) - 14 else (ai : Int)) - 7)
        ((if b3 = 0x0d then (ai : Int) - 14 else (ai : Int)) - 1)
  · rw [if_pos hmm]
  case neg =>
  rw [if_neg hmm]
  by_cases hwm : w ≠ [] ∧ pySlice d ((xi : Int) + 8) ((xi : Int) + 14) ∉ w
  · rw [if_pos hwm]
  case neg =>
  rw [if_neg hwm]
  have hfb := pyFind_bounds d [0x16, 0x95, 0xFE] (if b3 = 0x0d then 30 else 0) d.length xi hfind
  obtain ⟨rb, hrb⟩ : ∃ rb, pySlice d (if b3 = 0x0d then 18 else ((b2 + 3 : Nat) : Int) - 1)
      ((if b3 = 0x0d then 18 else ((b2 + 3 : Nat) : Int) - 1) + 1) = [rb] := by
    apply pySlice_singleton
    · by_cases hb3 : b3 = 0x0d
      · simp [hb3]
      · simp [hb3]; omega
    · by_cases hb3 : b3 = 0x0d
      · simp only [if_pos hb3]
        rw [if_pos hb3] at hfb
        simp at hfb
        omega
      · simp only [if_neg hb3]
        omega
  rw [hrb]
  simp only
  cases hlook : List.lookup (pySlice d ((xi : Int) + 5) ((xi : Int) + 7)) XIAOMI_TYPE_DICT with
  | none => rfl
  | some st =>
  simp only
  rw [hsl]
  simp only
  by_cases h40 : 256 * f0 + f1 &&& 0x4000 = 0
  · rw [if_pos h40]
  case neg =>
  rw [if_neg h40]
  by_cases h3l : (if 256 * f0 + f1 &&& 0x2000 ≠ 0 then (-1 : Int) else 0) +
      ((b2 + 3 : Nat) : Int) - (xi : Int) - 15 < 3
  · rw [if_pos h3l]
  case neg =>
  rw [if_neg h3l]
  by_cases hxl : (if 256 * f0 + f1 &&& 0x2000 ≠ 0 then (-1 : Int) else 0) +
      ((b2 + 3 : Nat) : Int) - (xi : Int) - 15 ≠
      (((pySlice d (((if 256 * f0 + f1 &&& 0x2000 ≠ 0 then 1 else 0) + xi + 14 : Nat) : Int)
        (-1)).length : Nat) : Int)
  · rw [if_pos hxl]
  case neg =>
  rw [if_neg hxl]
  rw [if_pos (show 256 * f0 + f1 &&& 0x0800 ≠ 0 from by rw [hfc]; exact henc)]
  rw [hxm, hkey]
  simp only
  rw [hreg, hnon, hdec]

/-- Claim C8: in every record the parser produces, the `rssi` field (when
present — the malformed-stream outcome is the empty record) equals the
signed-byte interpretation of the byte at the fixed RSSI offset of the
original frame, negated if positive, so the reported RSSI is never
positive. -/
theorem c8_rssi_nonpositive_from_fixed_offset (d : List Nat) (k : List (List Nat × List Nat))
    (w : List (List Nat)) (r : Bool) (res : Dict) (v : XValue)
    (hp : parse_raw_message (some d) k w r = .val (some res))
    (hv : List.lookup "rssi" res = some v) :
    v = .vInt (rssi_val_of d) ∧ rssi_val_of d ≤ 0 := by
  obtain ⟨b3, b2, rb, packet, st, mac, data2, m2, p2, h3, h2, hrsl, hres⟩ :=
    parse_success_shape ccmDecryptAndVerify d k w r res hp
  subst hres
  unfold walk at hv
  have h0 := walk_lookup_rssi data2 (m2 - p2 + 1) m2 p2 _ v hv
  simp [List.lookup] at h0
  have hrv : rssi_val_of d = (if 0 < toSigned rb then -toSigned rb else toSigned rb) := by
    simp only [rssi_val_of, h3, h2]
    rw [hrsl]
  constructor
  · rw [hrv, ← h0]
  · rw [hrv]
    by_cases hpos : 0 < toSigned rb
    · rw [if_pos hpos]; omega
    · rw [if_neg hpos]; omega

/-- Claim C1 (amended): the parser never returns a partially decoded
record: every record it produces either is the empty record (the malformed
sub-record stream outcome, where partial results are discarded — but the
empty record, not `None`, is returned, see the counterexample) or contains
the `rssi`, `mac`, `type` and `packet` fields. -/
theorem c1_amended_no_partial_record (d : List Nat) (k : List (List Nat × List Nat))
    (w : List (List Nat)) (r : Bool) (res : Dict)
    (hp : parse_raw_message (some d) k w r = .val (some res)) :
    res = [] ∨ (List.lookup "rssi" res ≠ none ∧ List.lookup "mac" res ≠ none ∧
      List.lookup "type" res ≠ none ∧ List.lookup "packet" res ≠ none) := by
  obtain ⟨b3, b2, rb, packet, st, mac, data2, m2, p2, h3, h2, hrsl, hres⟩ :=
    parse_success_shape ccmDecryptAndVerify d k w r res hp
  by_cases he : res = []
  · exact Or.inl he
  right
  subst hres
  unfold walk at he ⊢
  have hpres := fun (key : String) (hk : List.lookup key
      ([("rssi", XValue.vInt (if 0 < toSigned rb then -toSigned rb else toSigned rb)),
        ("mac", XValue.vStr mac), ("type", XValue.vStr st),
        ("packet", XValue.vInt (packet : Int))] : Dict) ≠ none) =>
    walk_presence key data2 (m2 - p2 + 1) m2 p2
      [("rssi", XValue.vInt (if 0 < toSigned rb then -toSigned rb else toSigned rb)),
       ("mac", XValue.vStr mac), ("type", XValue.vStr st),
       ("packet", XValue.vInt (packet : Int))] hk
  refine ⟨?_, ?_, ?_, ?_⟩
  · rcases hpres "rssi" (by simp [List.lookup]) with hemp | hs
    · exact absurd hemp he
    · exact hs
  · rcases hpres "mac" (by simp [List.lookup]) with hemp | hs
    · exact absurd hemp he
    · exact hs
  · rcases hpres "type" (by simp [List.lookup]) with hemp | hs
    · exact absurd hemp he
    · exact hs
  · rcases hpres "packet" (by simp [List.lookup]) with hemp | hs
    · exact absurd hemp he
    · exact hs

/-- Claim C10: calling `parse_raw_message` with the absent frame (`None`)
returns `None` rather than raising: the guard precedes any byte access. -/
theorem c10_none_frame_returns_none (k : List (List Nat × List Nat))
    (w : List (List Nat)) (r : Bool) :
    parse_raw_message none k w r = .val none := rfl

/-- Claim C5: the typed value decoder applied to type tag `0x100D` (wire
bytes `0D 10`) with value `[0xD2, 0x00, 0xD0, 0x02]` yields temperature 21.0
(signed little-endian 16-bit 0x00D2 = 210, divided by 10) and humidity 72.0
(unsigned little-endian 16-bit 0x02D0 = 720, divided by 10). -/
theorem c5_combined_temp_humi_decode :
    parse_xiaomi_value [0xD2, 0x00, 0xD0, 0x02] [0x0D, 0x10] =
      some [("temperature", .vRat 21), ("humidity", .vRat 72)] := by
  simp only [parse_xiaomi_value, le16, toSigned16]
  norm_num

/-- Only the first sub-record start the walker visits can exceed the footer
boundary: every element of the visit trace is the entry start itself or lies
at or before `msg_length - 3`, with no assumption on the entry start. -/
theorem walkStartsAux_mem (data : List Nat) :
    ∀ (fuel m p q : Nat), q ∈ walkStartsAux data fuel m p → q = p ∨ q + 3 ≤ m := by
  intro fuel
  induction fuel with
  | zero => intro m p q hq; simp [walkStartsAux] at hq
  | succ n ih =>
    intro m p q hq
    simp only [walkStartsAux] at hq
    cases hg : data[p + 2]? with
    | none =>
      rw [hg] at hq
      simp at hq
      exact Or.inl hq
    | some L =>
      rw [hg] at hq
      simp only at hq
      rcases List.mem_cons.mp hq with h1 | h2
      · exact Or.inl h1
      · by_cases hbr : m - 3 < p + 3 + L
        · rw [if_pos hbr] at h2
          simp at h2
        · rw [if_neg hbr] at h2
          rcases ih m (p + 3 + L) q h2 with rfl | hb
          · right; omega
          · exact Or.inr hb

/-- Claim C2 (amended): the walker's loop guard keeps every sub-record start
after the first at or before the footer boundary `msg_length - 3` — on any
run, each visited start is the entry start itself or respects the boundary —
and when the walker is entered with the entry start at or before the
boundary (which holds for every unencrypted frame, where the parser has
checked `xdata_length ≥ 3`, though a successful decryption can shrink the
region below that), every visited start respects the boundary.  Tag, length
and value reads are clamped to the physical frame: an out-of-frame length
read aborts the walk discarding all results, and a declared value length can
make the value span extend past the declared envelope data end, its clamped
bytes still being decoded — see the counterexample. -/
theorem c2_walker_starts_bounded (data : List Nat) (m p : Nat) :
    (∀ q ∈ walkStarts data m p, q = p ∨ q + 3 ≤ m) ∧
    (p + 3 ≤ m → ∀ q ∈ walkStarts data m p, q + 3 ≤ m) :=
  ⟨fun q hq => walkStartsAux_mem data (m - p + 1) m p q hq,
   fun hp => walkStarts_bound data (m - p + 1) m p hp⟩

/-- Claim C1 counterexample: on `frameC1` — an encrypted frame whose empty
ciphertext authenticates, leaving a vendor data region too short for the
walker to read a length byte — `parse_raw_message` returns the empty record
(Python returns the dict after `result = ...empty...; break`), not `None`
as the claim states. -/
theorem c1_counterexample_empty_record_not_none :
    parse_raw_message (some frameC1) keysC [] false = .val (some []) := by
  decide

/-- Claim C2 counterexample: on `frameC2` the single sub-record starts at 32
and declares value length `frameC2.getD 34 0 = 5`, so its value span
`[35, 40)` ends past the footer boundary `36 - 3 = 33` and even past the
frame end 36; the walker still decodes it (clamped to the buffer), producing
a battery reading `100` taken from the final RSSI byte `frameC2.getD 35 0`. -/
theorem c2_counterexample_value_span_overrun :
    parse_raw_message (some frameC2) [] [] false =
      .val (some [("rssi", .vInt (-100)), ("mac", .vStr "FFEEDDCCBBAA"),
        ("type", .vStr "LYWSDCGQ"), ("packet", .vInt 90), ("battery", .vInt 100)]) ∧
    frameC2.getD 34 0 = 5 ∧ frameC2.getD 2 0 + 3 = 36 ∧ frameC2.length = 36 ∧
    36 - 3 < 32 + 3 + 5 ∧ 36 < 32 + 3 + 5 ∧ frameC2.getD 35 0 = 100 := by
  refine ⟨by decide, by decide, by decide, by decide, by decide, by decide, by decide⟩

/-- Witness for C1 (amended) at a concrete well-formed frame. -/
theorem c1_amended_no_partial_record_witness :
    parse_raw_message (some frameHappy) [] [] false =
      .val (some [("rssi", .vInt (-56)), ("mac", .vStr "FFEEDDCCBBAA"),
        ("type", .vStr "LYWSDCGQ"), ("packet", .vInt 90), ("battery", .vInt 100)]) ∧
    ([("rssi", XValue.vInt (-56)), ("mac", XValue.vStr "FFEEDDCCBBAA"),
      ("type", XValue.vStr "LYWSDCGQ"), ("packet", XValue.vInt 90),
      ("battery", XValue.vInt 100)] = ([] : Dict) ∨
      (List.lookup "rssi" ([("rssi", XValue.vInt (-56)), ("mac", XValue.vStr "FFEEDDCCBBAA"),
        ("type", XValue.vStr "LYWSDCGQ"), ("packet", XValue.vInt 90),
        ("battery", XValue.vInt 100)] : Dict) ≠ none ∧
       List.lookup "mac" ([("rssi", XValue.vInt (-56)), ("mac", XValue.vStr "FFEEDDCCBBAA"),
        ("type", XValue.vStr "LYWSDCGQ"), ("packet", XValue.vInt 90),
        ("battery", XValue.vInt 100)] : Dict) ≠ none ∧
       List.lookup "type" ([("rssi", XValue.vInt (-56)), ("mac", XValue.vStr "FFEEDDCCBBAA"),
        ("type", XValue.vStr "LYWSDCGQ"), ("packet", XValue.vInt 90),
        ("battery", XValue.vInt 100)] : Dict) ≠ none ∧
       List.lookup "packet" ([("rssi", XValue.vInt (-56)), ("mac", XValue.vStr "FFEEDDCCBBAA"),
        ("type", XValue.vStr "LYWSDCGQ"), ("packet", XValue.vInt 90),
        ("battery", XValue.vInt 100)] : Dict) ≠ none)) :=
  ⟨by decide,
   c1_amended_no_partial_record frameHappy [] [] false
     [("rssi", XValue.vInt (-56)), ("mac", XValue.vStr "FFEEDDCCBBAA"),
      ("type", XValue.vStr "LYWSDCGQ"), ("packet", XValue.vInt 90),
      ("battery", XValue.vInt 100)] (by decide)⟩

/-- Witness for C2 (amended) at a concrete frame: the start 32 is in the
trace of the walk over `frameHappy`, both conjuncts apply to it, and the
entry-start condition of the second conjunct holds. -/
theorem c2_walker_starts_bounded_witness :
    32 ∈ walkStarts frameHappy 37 32 ∧ (32 = 32 ∨ 32 + 3 ≤ 37) ∧
    (32 + 3 ≤ 37) ∧ (∀ q ∈ walkStarts frameHappy 37 32, q + 3 ≤ 37) :=
  ⟨by decide,
   (c2_walker_starts_bounded frameHappy 37 32).1 32 (by decide),
   by decide,
   (c2_walker_starts_bounded frameHappy 37 32).2 (by decide)⟩

/-- Witness for C3 at a concrete frame with differing embedded addresses. -/
theorem c3_address_mismatch_rejected_witness :
    xmac_of frameC3 = some [0xAA, 0xBB, 0xCC, 0xDD, 0xEE, 0xFF] ∧
    srcmac_of frameC3 = some [0xAB, 0xBB, 0xCC, 0xDD, 0xEE, 0xFF] ∧
    parse_raw_message (some frameC3) [] [] false = .val none :=
  ⟨by decide, by decide,
   c3_address_mismatch_rejected ccmDecryptAndVerify frameC3 [] [] false
     [0xAA, 0xBB, 0xCC, 0xDD, 0xEE, 0xFF] [0xAB, 0xBB, 0xCC, 0xDD, 0xEE, 0xFF]
     (by decide) (by decide) (by decide)⟩

/-- Claim C4 counterexample: the 3-byte frame `00 00 05` has a declared
length byte that does not match the buffer length (`5 + 3 = 8`, buffer 3),
so the claim says `parse_raw_message` returns `None` on it; instead the
source's first subscript `data[3]` raises an uncaught `IndexError`. -/
theorem c4_counterexample_short_frame_raises :
    ([0x00, 0x00, 0x05] : List Nat).getD 2 0 + 3 ≠ ([0x00, 0x00, 0x05] : List Nat).length ∧
    parse_raw_message (some [0x00, 0x00, 0x05]) [] [] false = .exn "IndexError" ∧
    parse_raw_message (some [0x00, 0x00, 0x05]) [] [] false ≠ .val none :=
  ⟨by decide, by decide, by decide⟩

/-- Witness for C4 (amended): both conjuncts applied at concrete frames — a
37-byte frame with a wrong declared length byte is rejected with `None`,
and a 3-byte frame escapes with the uncaught `IndexError`. -/
theorem c4_length_mismatch_rejected_witness :
    (4 ≤ frameC4.length ∧ frameC4.getD 2 0 + 3 ≠ frameC4.length ∧
      parse_raw_message (some frameC4) keysC [[0x01]] true = .val none) ∧
    (([0x00, 0x00, 0x05] : List Nat).length < 4 ∧
      parse_raw_message (some [0x00, 0x00, 0x05]) keysC [[0x01]] true = .exn "IndexError") :=
  ⟨⟨by decide, by decide,
    (c4_length_mismatch_rejected ccmDecryptAndVerify frameC4 keysC [[0x01]] true).1
      (by decide) (by decide)⟩,
   ⟨by decide,
    (c4_length_mismatch_rejected ccmDecryptAndVerify [0x00, 0x00, 0x05] keysC [[0x01]] true).2
      (by decide)⟩⟩

/-- Witness for C6: the encrypted frame `frameC1` with an empty key table is
silently dropped. -/
theorem c6_encrypted_missing_key_silent_drop_witness :
    framectrl_of frameC1 = some 0x4800 ∧ 0x4800 &&& 0x0800 ≠ 0 ∧
    xmac_of frameC1 = some [0xAA, 0xBB, 0xCC, 0xDD, 0xEE, 0xFF] ∧
    List.lookup [0xAA, 0xBB, 0xCC, 0xDD, 0xEE, 0xFF]
      ([] : List (List Nat × List Nat)) = none ∧
    parse_raw_message (some frameC1) [] [] false = .val none :=
  ⟨by decide, by decide, by decide, rfl,
   c6_encrypted_missing_key_silent_drop ccmDecryptAndVerify frameC1 [] [] false
     0x4800 [0xAA, 0xBB, 0xCC, 0xDD, 0xEE, 0xFF] (by decide) (by decide) (by decide) rfl⟩

/-- Witness for C7: on `frameC7` (valid tag with one byte flipped), the
modelled AES-CCM verification fails and the parser returns `None`. -/
theorem c7_aead_failure_returns_none_witness :
    framectrl_of frameC7 = some 0x4800 ∧ 0x4800 &&& 0x0800 ≠ 0 ∧
    xmac_of frameC7 = some [0xAA, 0xBB, 0xCC, 0xDD, 0xEE, 0xFF] ∧
    List.lookup [0xAA, 0xBB, 0xCC, 0xDD, 0xEE, 0xFF] keysC = some keyC ∧
    region_of frameC7 = some [0x01, 0x02, 0x03, 0x40, 0x47, 0x40, 0x19] ∧
    nonce_of frameC7 = some [0xAA, 0xBB, 0xCC, 0xDD, 0xEE, 0xFF, 0xAA, 0x01, 0x5A] ∧
    decrypt_payload ccmDecryptAndVerify [0x01, 0x02, 0x03, 0x40, 0x47, 0x40, 0x19] keyC
      [0xAA, 0xBB, 0xCC, 0xDD, 0xEE, 0xFF, 0xAA, 0x01, 0x5A] = none ∧
    parse_raw_message (some frameC7) keysC [] false = .val none :=
  ⟨by decide, by decide, by decide, by decide, by decide, by decide, by decide,
   c7_aead_failure_returns_none ccmDecryptAndVerify frameC7 keysC [] false
     0x4800 [0xAA, 0xBB, 0xCC, 0xDD, 0xEE, 0xFF] keyC
     [0x01, 0x02, 0x03, 0x40, 0x47, 0x40, 0x19]
     [0xAA, 0xBB, 0xCC, 0xDD, 0xEE, 0xFF, 0xAA, 0x01, 0x5A]
     (by decide) (by decide) (by decide) (by decide) (by decide) (by decide) (by decide)⟩

/-- Witness for C8 at a concrete frame: the produced record's `rssi` field
is `-56`, the negate-if-positive signed byte `0xC8` at the frame end minus
one, and it is non-positive. -/
theorem c8_rssi_nonpositive_from_fixed_offset_witness :
    parse_raw_message (some frameHappy) [] [] false =
      .val (some [("rssi", .vInt (-56)), ("mac", .vStr "FFEEDDCCBBAA"),
        ("type", .vStr "LYWSDCGQ"), ("packet", .vInt 90), ("battery", .vInt 100)]) ∧
    XValue.vInt (-56) = .vInt (rssi_val_of frameHappy) ∧ rssi_val_of frameHappy ≤ 0 :=
  ⟨by decide,
   (c8_rssi_nonpositive_from_fixed_offset frameHappy [] [] false
     [("rssi", XValue.vInt (-56)), ("mac", XValue.vStr "FFEEDDCCBBAA"),
      ("type", XValue.vStr "LYWSDCGQ"), ("packet", XValue.vInt 90),
      ("battery", XValue.vInt 100)] (.vInt (-56)) (by decide) (by decide)).1,
   (c8_rssi_nonpositive_from_fixed_offset frameHappy [] [] false
     [("rssi", XValue.vInt (-56)), ("mac", XValue.vStr "FFEEDDCCBBAA"),
      ("type", XValue.vStr "LYWSDCGQ"), ("packet", XValue.vInt 90),
      ("battery", XValue.vInt 100)] (.vInt (-56)) (by decide) (by decide)).2⟩

/-- Witness for C9: an empty whitelist equals whitelisting the frame's own
address, and a non-empty whitelist excluding it rejects the frame. -/
theorem c9_whitelist_semantics_witness :
    xmac_of frameHappy = some [0xAA, 0xBB, 0xCC, 0xDD, 0xEE, 0xFF] ∧
    parse_raw_message (some frameHappy) [] [] false =
      parse_raw_message (some frameHappy) []
        [[0xAA, 0xBB, 0xCC, 0xDD, 0xEE, 0xFF]] false ∧
    parse_raw_message (some frameHappy) [] [[0x01]] false = .val none :=
  ⟨by decide,
   (c9_whitelist_semantics ccmDecryptAndVerify frameHappy [] [[0x01]] false
     [0xAA, 0xBB, 0xCC, 0xDD, 0xEE, 0xFF] (by decide)).1,
   (c9_whitelist_semantics ccmDecryptAndVerify frameHappy [] [[0x01]] false
     [0xAA, 0xBB, 0xCC, 0xDD, 0xEE, 0xFF] (by decide)).2 (by decide) (by decide)⟩
